import Mathlib

/-!
Shallow embedding of the flowdec Richardson-Lucy deconvolver
(`src/python/flowdec/restoration.py`) and the parts of its utility layer
that the repository imports from `tfdecon` (FFT selection, centered
padding, fftshift).  Tensors are modelled as lists of real numbers
(rank 1); shape validation, which in the source operates on shape
vectors of any rank, is modelled on lists of integers.
-/

namespace Flowdec

/-- Modelled from the spec: padding-mode constant `OPM_LOG2` of
`tfdecon.fft_utils_tf` (the `'log2'` mode). -/
def OPM_LOG2 : String := "log2"

/-- Modelled from the spec: padding-mode constant `OPM_NONE` of
`tfdecon.fft_utils_tf` (the `'none'` mode). -/
def OPM_NONE : String := "none"

/-- Python's `str.startswith`, used by `default_input_prep_fn` to
dispatch on a tensor's name. -/
def str_startswith (s p : String) : Bool := p.data.isPrefixOf s.data

/-- `default_input_prep_fn` (restoration.py lines 71-81): normalize the
kernel/PSF so its values sum to one; any tensor whose name does not
start with `kernel:` is returned unchanged. -/
noncomputable def default_input_prep_fn (tensor_name : String) (tensor : List ℝ) : List ℝ :=
  if str_startswith tensor_name "kernel:" then tensor.map (fun x => x / tensor.sum) else tensor

/-- `flag_pad_mode` (restoration.py line 159): the stacked comparisons
of the padding-mode input with the two recognized mode constants. -/
def flag_pad_mode (padmh : String) : List Bool :=
  [padmh == OPM_LOG2, padmh == OPM_NONE]

/-- `assert_pad_mode` (restoration.py lines 160-162): the padding mode
is accepted when the sum of the flags, cast to integers, is positive. -/
def assert_pad_mode (padmh : String) : Bool :=
  decide (0 < ((flag_pad_mode padmh).map (fun b => if b then (1 : Int) else 0)).sum)

/-- `flag_shapes` (restoration.py line 164): elementwise difference of
the data shape and the kernel shape. -/
def flag_shapes (dshape kshape : List Int) : List Int :=
  List.zipWith (fun a b => a - b) dshape kshape

/-- `assert_shapes` (restoration.py lines 165-167): the shapes are
accepted when the sum of the per-axis differences is nonnegative. -/
def assert_shapes (dshape kshape : List Int) : Bool :=
  decide (0 ≤ (flag_shapes dshape kshape).sum)

/-- The validation gate of `_build_tf_graph` (restoration.py lines
158-169): both assertion operations are control dependencies of the
rest of the graph, so a failing assertion aborts the run with its
message before any padding or iteration happens. -/
def validate_graph (padmh : String) (dshape kshape : List Int) : Except String Unit :=
  if assert_pad_mode padmh = false then Except.error "Pad mode not valid"
  else if assert_shapes dshape kshape = false then Except.error "Data shape must be >= kernel shape"
  else Except.ok ()

/-- Modelled from the spec: the primitive root used by the discrete
Fourier transform the FFT selector of `tfdecon.fft_utils_tf` returns
(standard forward transform with negative exponent). -/
noncomputable def dftOmega (N : ℕ) : ℂ :=
  Complex.exp (-(2 * (Real.pi : ℂ) * Complex.I) / (N : ℂ))

/-- Modelled from the spec: forward discrete Fourier transform (the
`fft_fwd` function produced by `get_fft_tf_fns`). -/
noncomputable def dftL (x : List ℂ) : List ℂ :=
  (List.range x.length).map
    (fun k => ((List.range x.length).map (fun n => x.getD n 0 * dftOmega x.length ^ (k * n))).sum)

/-- Modelled from the spec: inverse discrete Fourier transform (the
`fft_rev` function produced by `get_fft_tf_fns`), normalized by `1/N`. -/
noncomputable def idftL (x : List ℂ) : List ℂ :=
  (List.range x.length).map
    (fun k =>
      ((List.range x.length).map (fun n => x.getD n 0 * (dftOmega x.length)⁻¹ ^ (k * n))).sum
        / (x.length : ℂ))

/-- Modelled from the spec: `pad_around_center` of `tfdecon.tf_ops` -
embed a tensor centered in a zero-filled tensor of the target size,
the extra unit of an odd pad amount going to the right end. -/
def pad_around_center (x : List ℝ) (m : ℕ) : List ℝ :=
  List.replicate ((m - x.length) / 2) 0 ++ x ++
    List.replicate (m - x.length - (m - x.length) / 2) 0

/-- Modelled from the spec: `unpad_around_center` of `tfdecon.tf_ops` -
extract the centered region of the given size. -/
def unpad_around_center (x : List ℝ) (n : ℕ) : List ℝ :=
  (x.drop ((x.length - n) / 2)).take n

/-- Modelled from the spec: `ifftshift` of `tfdecon.fft_utils_tf` -
circularly shift the array so that the element at the geometric center
moves to index 0 (the standard ifftshift convention). -/
def ifftshiftL {α : Type} (x : List α) : List α := x.rotate (x.length / 2)

/-- Modelled from the spec: `optimize_dims` of `tfdecon.fft_utils_tf`
in `LOG2` mode - round an extent up to the next power of two. -/
def optimize_dims (n : ℕ) : ℕ := 2 ^ Nat.clog 2 n

/-- The configuration of `FFTDeconvolver.__init__` that the graph
construction reads (restoration.py lines 86-108): the domain flag and
the epsilon threshold. -/
structure RLConfig where
  real_domain_fft : Bool
  epsilon : ℝ

/-- The inner `conv` helper of `_build_tf_graph` (restoration.py lines
199-200): the real part of the inverse transform of the forward
transform of the data multiplied by a precomputed kernel spectrum. -/
noncomputable def conv (data : List ℝ) (kernel_fft : List ℂ) : List ℝ :=
  (idftL (List.zipWith (fun a b => a * b) (dftL (data.map Complex.ofReal)) kernel_fft)).map
    Complex.re

/-- The loop body of `_build_tf_graph` (restoration.py lines 202-216):
one Richardson-Lucy iteration on the deconvolution estimate. -/
noncomputable def rl_body (datat : List ℝ) (kern_fft kern_fft_conj : List ℂ) (epsilon : ℝ)
    (decon : List ℝ) : List ℝ :=
  let conv1 := conv decon kern_fft
  let blur1 := List.zipWith (fun c d => if c < epsilon then 0 else d / c) conv1 datat
  let conv2 := conv blur1 kern_fft_conj
  List.zipWith (fun dc c2 => max (dc * c2) 0) decon conv2

/-- `tf.while_loop(cond, body, [1, decon])` of restoration.py line 218:
the loop variable `i` starts at 1 and the body runs while `i <= niter`. -/
noncomputable def rl_while (step : List ℝ → List ℝ) (niter i : ℕ) (decon : List ℝ) : List ℝ :=
  if h : i ≤ niter then rl_while step niter (i + 1) (step decon) else decon
termination_by niter + 1 - i
decreasing_by
  simp_wf
  omega

/-- `datat` (restoration.py lines 172-176): in `LOG2` mode the data is
padded to FFT-efficient dimensions, otherwise left unchanged. -/
noncomputable def datat_of (padmh : String) (datah : List ℝ) : List ℝ :=
  if padmh == OPM_LOG2 then pad_around_center datah (optimize_dims datah.length) else datah

/-- `kernt` (restoration.py line 179): the kernel padded to the padded
data's dimensions and shifted so its center moves to index 0. -/
noncomputable def kernt_of (padmh : String) (datah kernh : List ℝ) : List ℝ :=
  ifftshiftL (pad_around_center kernh (datat_of padmh datah).length)

/-- `kern_fft` (restoration.py line 185): forward transform of the
prepared kernel. -/
noncomputable def kern_fft_of (padmh : String) (datah kernh : List ℝ) : List ℂ :=
  dftL ((kernt_of padmh datah kernh).map Complex.ofReal)

/-- `kern_fft_conj` (restoration.py lines 186-189): in real-domain mode
the forward transform of the axis-reversed kernel, otherwise the
complex conjugate of `kern_fft`. -/
noncomputable def kern_fft_conj_of (cfg : RLConfig) (padmh : String) (datah kernh : List ℝ) :
    List ℂ :=
  if cfg.real_domain_fft then dftL (((kernt_of padmh datah kernh).reverse).map Complex.ofReal)
  else (kern_fft_of padmh datah kernh).map (starRingEnd ℂ)

/-- `decon` initialization (restoration.py line 194): a constant 0.5
over the padded data domain. -/
noncomputable def decon_init (padmh : String) (datah : List ℝ) : List ℝ :=
  List.replicate (datat_of padmh datah).length 0.5

/-- The value of the `result` graph output (restoration.py lines
218-224): run the while loop from counter 1 on the constant initial
estimate, then crop the result back to the original data shape.  The
input-preparation hook is applied to both placeholders, whose
TensorFlow names are `data:0` and `kernel:0`. -/
noncomputable def rl_result (cfg : RLConfig) (padmh : String) (data kernel : List ℝ)
    (niter : ℕ) : List ℝ :=
  let datah := default_input_prep_fn "data:0" data
  let kernh := default_input_prep_fn "kernel:0" kernel
  unpad_around_center
    (rl_while
      (rl_body (datat_of padmh datah) (kern_fft_of padmh datah kernh)
        (kern_fft_conj_of cfg padmh datah kernh) cfg.epsilon)
      niter 1 (decon_init padmh datah))
    data.length

/-- Executing the built graph: the validation assertions gate the rest
of the computation (restoration.py lines 158-229), so an invalid
padding mode or shape pair aborts with the assertion message and
otherwise the `result` output is produced. -/
noncomputable def build_and_run (cfg : RLConfig) (padmh : String) (data kernel : List ℝ)
    (niter : ℕ) : Except String (List ℝ) :=
  match validate_graph padmh [(data.length : Int)] [(kernel.length : Int)] with
  | Except.error e => Except.error e
  | Except.ok _ => Except.ok (rl_result cfg padmh data kernel niter)

/-- `DeconvolutionResult` (restoration.py lines 9-13). -/
structure DeconvolutionResult where
  data : List ℝ
  info : Option Unit

/-- The message of the `ValueError` raised by `Deconvolver._run`
(restoration.py line 59) when the graph attribute is missing. -/
def notInitMsg : String :=
  "Must initialize deconvolver before running (via `.initialize` function)"

/-- A `RichardsonLucyDeconvolver` instance: its configuration, its
padding mode, and the optional graph attribute that `initialize` sets
(restoration.py lines 48-50). -/
structure RLDeconvolver where
  cfg : RLConfig
  pad_mode : String
  graph : Option Unit

/-- `Deconvolver.initialize` (restoration.py lines 48-50): build the
graph and store it on the instance. -/
def RLDeconvolver.init (a : RLDeconvolver) : RLDeconvolver :=
  ⟨a.cfg, a.pad_mode, some ()⟩

/-- `RichardsonLucyDeconvolver.run` through `Deconvolver._run`
(restoration.py lines 56-65 and 146-150): fail when the instance has
no graph attribute, otherwise execute the graph and wrap the `result`
output in a `DeconvolutionResult` with `info=None`. -/
noncomputable def RLDeconvolver.run (a : RLDeconvolver) (data kernel : List ℝ) (niter : ℕ) :
    Except String DeconvolutionResult :=
  match a.graph with
  | none => Except.error notInitMsg
  | some _ =>
      (build_and_run a.cfg a.pad_mode data kernel niter).map
        (fun r => DeconvolutionResult.mk r none)

/-- One Richardson-Lucy iteration exactly as the specification words
it: `conv1` is the real part of `IFFT(FFT(estimate) * kern_fft)`, the
ratio is zero where `conv1` is below epsilon and otherwise the padded
data divided by `conv1`, `conv2` is the real part of
`IFFT(FFT(ratio) * kern_fft_conj)`, and the new estimate is
`max(estimate * conv2, 0)`. -/
noncomputable def rl_iteration_spec (data_padded : List ℝ) (kern_fft kern_fft_conj : List ℂ)
    (epsilon : ℝ) (estimate : List ℝ) : List ℝ :=
  let conv1 :=
    (idftL (List.zipWith (fun a b => a * b) (dftL (estimate.map Complex.ofReal)) kern_fft)).map
      Complex.re
  let ratio_t := List.zipWith (fun c d => if c < epsilon then 0 else d / c) conv1 data_padded
  let conv2 :=
    (idftL (List.zipWith (fun a b => a * b) (dftL (ratio_t.map Complex.ofReal)) kern_fft_conj)).map
      Complex.re
  List.zipWith (fun e c => max (e * c) 0) estimate conv2

/-! Helper lemmas. -/

theorem rl_while_eq_iterate (step : List ℝ → List ℝ) (niter i : ℕ) (d : List ℝ) :
    rl_while step niter i d = step^[niter + 1 - i] d := by
  generalize hfuel : niter + 1 - i = k
  induction k generalizing i d with
  | zero =>
    rw [rl_while]
    have hni : ¬ i ≤ niter := by omega
    simp [hni]
  | succ k ih =>
    rw [rl_while]
    have hle : i ≤ niter := by omega
    rw [dif_pos hle, ih (i + 1) (step d) (by omega), ← Function.iterate_succ_apply]

theorem rl_body_eq_spec (datat : List ℝ) (kern_fft kern_fft_conj : List ℂ) (epsilon : ℝ) :
    rl_body datat kern_fft kern_fft_conj epsilon =
      rl_iteration_spec datat kern_fft kern_fft_conj epsilon := rfl

theorem assert_pad_mode_iff (pm : String) :
    assert_pad_mode pm = true ↔ (pm = OPM_LOG2 ∨ pm = OPM_NONE) := by
  by_cases h1 : pm = OPM_LOG2 <;> by_cases h2 : pm = OPM_NONE <;>
    simp [assert_pad_mode, flag_pad_mode, h1, h2] <;> decide

theorem assert_shapes_single (n k : Int) : assert_shapes [n] [k] = true ↔ k ≤ n := by
  simp [assert_shapes, flag_shapes]

theorem prep_data (t : List ℝ) : default_input_prep_fn "data:0" t = t := by
  have h : str_startswith "data:0" "kernel:" = false := by decide
  simp [default_input_prep_fn, h]

theorem prep_kernel (t : List ℝ) :
    default_input_prep_fn "kernel:0" t = t.map (fun x => x / t.sum) := by
  have h : str_startswith "kernel:0" "kernel:" = true := by decide
  simp [default_input_prep_fn, h]

theorem length_pad (x : List ℝ) (m : ℕ) (h : x.length ≤ m) :
    (pad_around_center x m).length = m := by
  simp [pad_around_center]
  omega

theorem length_unpad (x : List ℝ) (n : ℕ) (h : n ≤ x.length) :
    (unpad_around_center x n).length = n := by
  simp [unpad_around_center]
  omega

theorem le_optimize_dims (n : ℕ) : n ≤ optimize_dims n :=
  Nat.le_pow_clog (by norm_num) n

theorem length_datat_of (pm : String) (t : List ℝ) : t.length ≤ (datat_of pm t).length := by
  unfold datat_of
  by_cases h : pm == OPM_LOG2
  · rw [if_pos h, length_pad t _ (le_optimize_dims t.length)]
    exact le_optimize_dims t.length
  · rw [if_neg h]

theorem length_kernt_of (pm : String) (datah kernh : List ℝ)
    (h : kernh.length ≤ (datat_of pm datah).length) :
    (kernt_of pm datah kernh).length = (datat_of pm datah).length := by
  simp [kernt_of, ifftshiftL, length_pad kernh _ h]

theorem length_dftL (x : List ℂ) : (dftL x).length = x.length := by
  simp [dftL]

theorem length_idftL (x : List ℂ) : (idftL x).length = x.length := by
  simp [idftL]

theorem length_conv (data : List ℝ) (kernel_fft : List ℂ) :
    (conv data kernel_fft).length = min data.length kernel_fft.length := by
  simp [conv, length_idftL, length_dftL]

theorem length_rl_body (datat : List ℝ) (kern_fft kern_fft_conj : List ℂ) (epsilon : ℝ)
    (d : List ℝ) (M : ℕ) (hdt : datat.length = M) (hkf : kern_fft.length = M)
    (hkc : kern_fft_conj.length = M) (hd : d.length = M) :
    (rl_body datat kern_fft kern_fft_conj epsilon d).length = M := by
  simp [rl_body, length_conv, hdt, hkf, hkc, hd]

theorem length_iterate_rl_body (datat : List ℝ) (kern_fft kern_fft_conj : List ℂ)
    (epsilon : ℝ) (M : ℕ) (hdt : datat.length = M) (hkf : kern_fft.length = M)
    (hkc : kern_fft_conj.length = M) (k : ℕ) (d : List ℝ) (hd : d.length = M) :
    ((rl_body datat kern_fft kern_fft_conj epsilon)^[k] d).length = M := by
  induction k generalizing d with
  | zero => simpa using hd
  | succ k ih =>
    rw [Function.iterate_succ_apply]
    exact ih _ (length_rl_body _ _ _ _ _ _ hdt hkf hkc hd)

theorem forall_mem_zipWith {α β γ : Type} (f : α → β → γ) (p : γ → Prop)
    (hf : ∀ a b, p (f a b)) :
    ∀ (as : List α) (bs : List β), ∀ y ∈ List.zipWith f as bs, p y := by
  intro as
  induction as with
  | nil => intro bs y hy; simp at hy
  | cons a as ih =>
    intro bs y hy
    cases bs with
    | nil => simp at hy
    | cons b bs =>
      simp [List.zipWith] at hy
      rcases hy with h | h
      · rw [h]; exact hf a b
      · exact ih bs y h

theorem getD_nonneg_of_forall_mem (l : List ℝ) (h : ∀ y ∈ l, 0 ≤ y) (j : ℕ) :
    0 ≤ l.getD j 0 := by
  induction l generalizing j with
  | nil => simp [List.getD]
  | cons a l ih =>
    cases j with
    | zero => simpa using h a (by simp)
    | succ j =>
      simp only [List.getD_cons_succ]
      exact ih (fun y hy => h y (by simp [hy])) j

theorem mem_rl_body_nonneg (datat : List ℝ) (kern_fft kern_fft_conj : List ℂ) (epsilon : ℝ)
    (d : List ℝ) : ∀ y ∈ rl_body datat kern_fft kern_fft_conj epsilon d, 0 ≤ y := by
  intro y hy
  exact forall_mem_zipWith _ (fun z => 0 ≤ z) (fun a b => le_max_right _ _) _ _ y hy

theorem mem_unpad (x : List ℝ) (n : ℕ) : ∀ y ∈ unpad_around_center x n, y ∈ x := by
  intro y hy
  exact List.mem_of_mem_drop (List.mem_of_mem_take hy)

theorem unpad_replicate (M n : ℕ) (c : ℝ) (h : n ≤ M) :
    unpad_around_center (List.replicate M c) n = List.replicate n c := by
  simp [unpad_around_center, List.drop_replicate, List.take_replicate]
  omega

theorem rl_result_eq (cfg : RLConfig) (pm : String) (data kernel : List ℝ) (niter : ℕ) :
    rl_result cfg pm data kernel niter =
      unpad_around_center
        (rl_while
          (rl_body (datat_of pm data)
            (kern_fft_of pm data (default_input_prep_fn "kernel:0" kernel))
            (kern_fft_conj_of cfg pm data (default_input_prep_fn "kernel:0" kernel))
            cfg.epsilon)
          niter 1 (decon_init pm data))
        data.length := by
  unfold rl_result
  rw [prep_data]

theorem sum_map_div (t : List ℝ) (s : ℝ) :
    (t.map (fun x => x / s)).sum = t.sum / s := by
  induction t with
  | nil => simp
  | cons a l ih => simp [ih, add_div]

theorem validate_ok (pm : String) (ds ks : List Int) (hpm : assert_pad_mode pm = true)
    (hsh : assert_shapes ds ks = true) : validate_graph pm ds ks = Except.ok () := by
  simp [validate_graph, hpm, hsh]

theorem validate_ok_shapes (pm : String) (ds ks : List Int)
    (h : validate_graph pm ds ks = Except.ok ()) : assert_shapes ds ks = true := by
  unfold validate_graph at h
  by_cases h1 : assert_pad_mode pm = false
  · simp [h1] at h
  · by_cases h2 : assert_shapes ds ks = false
    · simp [h1, h2] at h
    · simpa using h2

theorem validate_error_cases (pm : String) (ds ks : List Int) (e : String)
    (h : validate_graph pm ds ks = Except.error e) :
    e = "Pad mode not valid" ∨ e = "Data shape must be >= kernel shape" := by
  unfold validate_graph at h
  by_cases h1 : assert_pad_mode pm = false
  · simp [h1] at h
    exact Or.inl h.symm
  · by_cases h2 : assert_shapes ds ks = false
    · simp [h1, h2] at h
      exact Or.inr h.symm
    · simp [h1, h2] at h

theorem build_and_run_zero (cfg : RLConfig) (pm : String) (data kernel : List ℝ)
    (hpm : assert_pad_mode pm = true)
    (hsh : assert_shapes [(data.length : Int)] [(kernel.length : Int)] = true) :
    build_and_run cfg pm data kernel 0 = Except.ok (List.replicate data.length 0.5) := by
  unfold build_and_run
  rw [validate_ok pm _ _ hpm hsh]
  show Except.ok (rl_result cfg pm data kernel 0) = _
  congr 1
  rw [rl_result_eq, rl_while_eq_iterate]
  show unpad_around_center (_^[0] (decon_init pm data)) data.length = _
  rw [Function.iterate_zero_apply]
  unfold decon_init
  exact unpad_replicate _ _ _ (length_datat_of pm data)

theorem length_rl_result (cfg : RLConfig) (pm : String) (data kernel : List ℝ) (niter : ℕ)
    (h : kernel.length ≤ data.length) :
    (rl_result cfg pm data kernel niter).length = data.length := by
  rw [rl_result_eq]
  have hnM : data.length ≤ (datat_of pm data).length := length_datat_of pm data
  have hkM : (default_input_prep_fn "kernel:0" kernel).length ≤ (datat_of pm data).length := by
    rw [prep_kernel, List.length_map]
    omega
  have hkt : (kernt_of pm data (default_input_prep_fn "kernel:0" kernel)).length =
      (datat_of pm data).length := length_kernt_of pm data _ hkM
  have hkf : (kern_fft_of pm data (default_input_prep_fn "kernel:0" kernel)).length =
      (datat_of pm data).length := by
    unfold kern_fft_of
    rw [length_dftL, List.length_map, hkt]
  have hkc : (kern_fft_conj_of cfg pm data (default_input_prep_fn "kernel:0" kernel)).length =
      (datat_of pm data).length := by
    unfold kern_fft_conj_of
    by_cases hr : cfg.real_domain_fft
    · rw [if_pos hr, length_dftL, List.length_map, List.length_reverse, hkt]
    · rw [if_neg hr, List.length_map, hkf]
  rw [rl_while_eq_iterate]
  have hloop := length_iterate_rl_body (datat_of pm data) _ _ cfg.epsilon
    (datat_of pm data).length rfl hkf hkc (niter + 1 - 1) (decon_init pm data)
    (by simp [decon_init])
  exact length_unpad _ _ (by omega)

theorem dftOmega_two : dftOmega 2 = -1 := by
  have h : (-(2 * (Real.pi : ℂ) * Complex.I) / ((2 : ℕ) : ℂ)) = -((Real.pi : ℂ) * Complex.I) := by
    push_cast
    ring
  rw [dftOmega, h, Complex.exp_neg, Complex.exp_pi_mul_I]
  norm_num

theorem dftL_two (a b : ℂ) : dftL [a, b] = [a + b, a - b] := by
  have h2 : List.range 2 = [0, 1] := by decide
  simp [dftL, h2, dftOmega_two]
  ring_nf

theorem idftL_two (a b : ℂ) : idftL [a, b] = [(a + b) / 2, (a - b) / 2] := by
  have h2 : List.range 2 = [0, 1] := by decide
  simp [idftL, h2, dftOmega_two, inv_neg]
  ring_nf

theorem conv_two_real (x0 x1 k0 k1 : ℝ) :
    conv [x0, x1] [(k0 : ℂ), (k1 : ℂ)] =
      [((x0 + x1) * k0 + (x0 - x1) * k1) / 2, ((x0 + x1) * k0 - (x0 - x1) * k1) / 2] := by
  have hz : List.zipWith (fun a b => a * b) [(x0 : ℂ) + x1, (x0 : ℂ) - x1] [(k0 : ℂ), (k1 : ℂ)]
      = [((x0 : ℂ) + x1) * k0, ((x0 : ℂ) - x1) * k1] := by
    simp
  have ha : (((x0 : ℂ) + x1) * k0 + ((x0 : ℂ) - x1) * k1) / 2
      = ((((x0 + x1) * k0 + (x0 - x1) * k1) / 2 : ℝ) : ℂ) := by
    push_cast
    ring
  have hb : (((x0 : ℂ) + x1) * k0 - ((x0 : ℂ) - x1) * k1) / 2
      = ((((x0 + x1) * k0 - (x0 - x1) * k1) / 2 : ℝ) : ℂ) := by
    push_cast
    ring
  simp only [conv, List.map_cons, List.map_nil, dftL_two, hz, idftL_two, ha, hb,
    Complex.ofReal_re]

theorem prep_kernel_concrete : default_input_prep_fn "kernel:0" [(1 : ℝ), 0] = [1, 0] := by
  rw [prep_kernel]
  norm_num [List.sum_cons, List.sum_nil]

theorem datat_concrete : datat_of OPM_NONE [(1 : ℝ), 0] = [1, 0] := by
  simp [datat_of, show (OPM_NONE == OPM_LOG2) = false from by decide]

theorem kernt_concrete : kernt_of OPM_NONE [(1 : ℝ), 0] [(1 : ℝ), 0] = [0, 1] := by
  unfold kernt_of
  rw [datat_concrete]
  have hpad : pad_around_center [(1 : ℝ), 0] ([(1 : ℝ), 0]).length = [1, 0] := by
    simp [pad_around_center]
  rw [hpad]
  show ([(1 : ℝ), 0]).rotate (([(1 : ℝ), 0]).length / 2) = [0, 1]
  rw [show (([(1 : ℝ), 0]).length / 2) = 1 from rfl, List.rotate_cons_succ, List.rotate_zero]
  rfl

theorem kern_fft_concrete :
    kern_fft_of OPM_NONE [(1 : ℝ), 0] [(1 : ℝ), 0] = [((1 : ℝ) : ℂ), ((-1 : ℝ) : ℂ)] := by
  unfold kern_fft_of
  rw [kernt_concrete]
  rw [show (([(0 : ℝ), 1]).map Complex.ofReal) = [((0 : ℝ) : ℂ), ((1 : ℝ) : ℂ)] from by simp]
  rw [dftL_two]
  norm_num

theorem kern_fft_conj_complex_concrete :
    kern_fft_conj_of ⟨false, 1e-6⟩ OPM_NONE [(1 : ℝ), 0] [(1 : ℝ), 0] =
      [((1 : ℝ) : ℂ), ((-1 : ℝ) : ℂ)] := by
  unfold kern_fft_conj_of
  rw [if_neg (by simp), kern_fft_concrete]
  simp [Complex.conj_ofReal]

theorem kern_fft_conj_real_concrete :
    kern_fft_conj_of ⟨true, 1e-6⟩ OPM_NONE [(1 : ℝ), 0] [(1 : ℝ), 0] =
      [((1 : ℝ) : ℂ), ((1 : ℝ) : ℂ)] := by
  unfold kern_fft_conj_of
  rw [if_pos (by simp), kernt_concrete]
  rw [show (([(0 : ℝ), 1]).reverse.map Complex.ofReal) = [((1 : ℝ) : ℂ), ((0 : ℝ) : ℂ)] from by
    simp]
  rw [dftL_two]
  norm_num

theorem decon_init_concrete : decon_init OPM_NONE [(1 : ℝ), 0] = [0.5, 0.5] := by
  unfold decon_init
  rw [datat_concrete]
  rfl

theorem rl_body_eval_case (kc0 kc1 : ℝ) :
    rl_body [1, 0] [((1 : ℝ) : ℂ), ((-1 : ℝ) : ℂ)] [((kc0 : ℝ) : ℂ), ((kc1 : ℝ) : ℂ)]
        (1e-6) [0.5, 0.5] =
      [max (0.5 * ((2 * kc0 + 2 * kc1) / 2)) 0, max (0.5 * ((2 * kc0 - 2 * kc1) / 2)) 0] := by
  have h1 : conv [(0.5 : ℝ), 0.5] [((1 : ℝ) : ℂ), ((-1 : ℝ) : ℂ)] = [1 / 2, 1 / 2] := by
    rw [conv_two_real]
    norm_num
  have h2 : List.zipWith (fun c d => if c < (1e-6 : ℝ) then 0 else d / c)
      [(1 / 2 : ℝ), 1 / 2] [1, 0] = [2, 0] := by
    norm_num [List.zipWith]
  have h3 : conv [(2 : ℝ), 0] [((kc0 : ℝ) : ℂ), ((kc1 : ℝ) : ℂ)]
      = [(2 * kc0 + 2 * kc1) / 2, (2 * kc0 - 2 * kc1) / 2] := by
    rw [conv_two_real]
    norm_num
  simp only [rl_body, h1, h2, h3]
  norm_num [List.zipWith]

theorem unpad_two (x y : ℝ) : unpad_around_center [x, y] 2 = [x, y] := by
  simp [unpad_around_center]

theorem run_complex_concrete :
    build_and_run ⟨false, 1e-6⟩ OPM_NONE [1, 0] [1, 0] 1 = Except.ok [0, 1] := by
  unfold build_and_run
  rw [show validate_graph OPM_NONE [(([(1 : ℝ), 0]).length : Int)]
      [(([(1 : ℝ), 0]).length : Int)] = Except.ok () from rfl]
  show Except.ok _ = _
  congr 1
  rw [rl_result_eq, prep_kernel_concrete, kern_fft_concrete, kern_fft_conj_complex_concrete,
    datat_concrete, decon_init_concrete,
    show (⟨false, (1e-6 : ℝ)⟩ : RLConfig).epsilon = (1e-6 : ℝ) from rfl,
    rl_while_eq_iterate, show (1 + 1 - 1 : ℕ) = 1 from rfl, Function.iterate_one,
    rl_body_eval_case 1 (-1)]
  norm_num [unpad_two]

theorem run_real_concrete :
    build_and_run ⟨true, 1e-6⟩ OPM_NONE [1, 0] [1, 0] 1 = Except.ok [1, 0] := by
  unfold build_and_run
  rw [show validate_graph OPM_NONE [(([(1 : ℝ), 0]).length : Int)]
      [(([(1 : ℝ), 0]).length : Int)] = Except.ok () from rfl]
  show Except.ok _ = _
  congr 1
  rw [rl_result_eq, prep_kernel_concrete, kern_fft_concrete, kern_fft_conj_real_concrete,
    datat_concrete, decon_init_concrete,
    show (⟨true, (1e-6 : ℝ)⟩ : RLConfig).epsilon = (1e-6 : ℝ) from rfl,
    rl_while_eq_iterate, show (1 + 1 - 1 : ℕ) = 1 from rfl, Function.iterate_one,
    rl_body_eval_case 1 1]
  norm_num [unpad_two]

/-- C1: for every iteration state and every `niter >= 1`, the while loop
(counter starting at 1, condition `i <= niter`) performs exactly `niter`
iterations, each computing `conv1` as the real part of
`IFFT(FFT(estimate) * kern_fft)`, the epsilon-guarded ratio, `conv2` as
the real part of `IFFT(FFT(ratio) * kern_fft_conj)`, and the new
estimate `max(estimate * conv2, 0)`. -/
theorem C1_loop_iterations (datat : List ℝ) (kern_fft kern_fft_conj : List ℂ) (epsilon : ℝ)
    (d0 : List ℝ) (niter : ℕ) (h : 1 ≤ niter) :
    rl_while (rl_body datat kern_fft kern_fft_conj epsilon) niter 1 d0 =
      (rl_iteration_spec datat kern_fft kern_fft_conj epsilon)^[niter] d0 := by
  rw [rl_while_eq_iterate, rl_body_eq_spec]
  congr 1

theorem C1_loop_iterations_witness :
    rl_while (rl_body [1] [1] [1] 0.001) 3 1 [2] =
      (rl_iteration_spec [1] [1] [1] 0.001)^[3] [2] :=
  C1_loop_iterations [1] [1] [1] 0.001 [2] 3 (by norm_num)

/-- C2: the shape assertion of the code sums the per-axis differences,
so data shape [1, 3] against kernel shape [2, 1] passes validation and
the computation proceeds, although kernel axis 0 (extent 2) strictly
exceeds data axis 0 (extent 1) - contradicting the claim that every
such input fails before the iteration loop. -/
theorem C2_shape_check_passes :
    validate_graph OPM_LOG2 [1, 3] [2, 1] = Except.ok () ∧ (1 : Int) < 2 :=
  ⟨rfl, by decide⟩

/-- C4: after every iteration (one or more applications of the loop
body, from any starting estimate) every element of the estimate is
nonnegative, and every element of the final `result` value (before any
output hook) is nonnegative. -/
theorem C4_nonnegativity (datat : List ℝ) (kern_fft kern_fft_conj : List ℂ) (epsilon : ℝ)
    (d0 : List ℝ) (k j : ℕ) (cfg : RLConfig) (pm : String) (data kernel : List ℝ)
    (niter jj : ℕ) (hk : 1 ≤ k) :
    0 ≤ ((rl_body datat kern_fft kern_fft_conj epsilon)^[k] d0).getD j 0 ∧
      0 ≤ (rl_result cfg pm data kernel niter).getD jj 0 := by
  constructor
  · obtain ⟨m, rfl⟩ : ∃ m, k = m + 1 := ⟨k - 1, by omega⟩
    rw [Function.iterate_succ_apply']
    exact getD_nonneg_of_forall_mem _ (mem_rl_body_nonneg _ _ _ _ _) j
  · apply getD_nonneg_of_forall_mem
    intro y hy
    rw [rl_result_eq] at hy
    have hy2 := mem_unpad _ _ y hy
    rw [rl_while_eq_iterate] at hy2
    cases hn : niter with
    | zero =>
      rw [hn, show (0 + 1 - 1 : ℕ) = 0 from rfl, Function.iterate_zero_apply] at hy2
      rw [List.eq_of_mem_replicate hy2]
      norm_num
    | succ m =>
      rw [hn] at hy2
      have : m + 1 + 1 - 1 = m + 1 := by omega
      rw [this, Function.iterate_succ_apply'] at hy2
      exact mem_rl_body_nonneg _ _ _ _ _ y hy2

theorem C4_nonnegativity_witness :
    0 ≤ ((rl_body [1] [1] [1] 0.001)^[2] [-5]).getD 0 0 ∧
      0 ≤ (rl_result ⟨false, 1e-6⟩ "log2" [1, 2] [1] 3).getD 1 0 :=
  C4_nonnegativity [1] [1] [1] 0.001 [-5] 2 0 ⟨false, 1e-6⟩ "log2" [1, 2] [1] 3 1
    (by norm_num)

/-- C5: with valid padding mode and shapes, running with `niter = 0`
succeeds and returns a tensor of the data's shape filled with the
constant 0.5, whatever the values of data and kernel. -/
theorem C5_zero_iterations (cfg : RLConfig) (pm : String) (data kernel : List ℝ)
    (hpm : assert_pad_mode pm = true)
    (hsh : assert_shapes [(data.length : Int)] [(kernel.length : Int)] = true) :
    build_and_run cfg pm data kernel 0 = Except.ok (List.replicate data.length 0.5) :=
  build_and_run_zero cfg pm data kernel hpm hsh

theorem C5_zero_iterations_witness :
    build_and_run ⟨false, 1e-6⟩ OPM_LOG2 [3, 4, 5] [9] 0 =
      Except.ok (List.replicate 3 0.5) :=
  C5_zero_iterations ⟨false, 1e-6⟩ OPM_LOG2 [3, 4, 5] [9] (by decide) (by decide)

/-- C6: every padding mode other than LOG2 and NONE makes the
validation gate fail with the `InvalidArgument`-style message, and the
whole run fails with that message whatever the data, kernel and
iteration count - no padding or iteration is ever reached. -/
theorem C6_invalid_pad_mode (pm : String) (h1 : pm ≠ OPM_LOG2) (h2 : pm ≠ OPM_NONE)
    (dshape kshape : List Int) (cfg : RLConfig) (data kernel : List ℝ) (niter : ℕ) :
    validate_graph pm dshape kshape = Except.error "Pad mode not valid" ∧
      build_and_run cfg pm data kernel niter = Except.error "Pad mode not valid" := by
  have hpm : assert_pad_mode pm = false := by
    cases hb : assert_pad_mode pm
    · rfl
    · rcases (assert_pad_mode_iff pm).mp hb with h | h
      · exact absurd h h1
      · exact absurd h h2
  constructor
  · simp [validate_graph, hpm]
  · unfold build_and_run
    rw [show validate_graph pm [(data.length : Int)] [(kernel.length : Int)] =
        Except.error "Pad mode not valid" by simp [validate_graph, hpm]]

theorem C6_invalid_pad_mode_witness :
    validate_graph "fft" [] [] = Except.error "Pad mode not valid" ∧
      build_and_run ⟨false, 1e-6⟩ "fft" [] [] 0 = Except.error "Pad mode not valid" :=
  C6_invalid_pad_mode "fft" (by decide) (by decide) [] [] ⟨false, 1e-6⟩ [] [] 0

/-- C7: the default input-preparation hook divides the kernel tensor
elementwise by the sum of its elements (so the prepared kernel sums to
one whenever the original sum is nonzero) and returns every tensor
whose name does not start with `kernel:` - in particular the data
tensor - unchanged. -/
theorem C7_default_input_prep (t : List ℝ) :
    default_input_prep_fn "kernel:0" t = t.map (fun x => x / t.sum) ∧
      (t.sum ≠ 0 → (default_input_prep_fn "kernel:0" t).sum = 1) ∧
      ∀ nm : String, str_startswith nm "kernel:" = false → default_input_prep_fn nm t = t := by
  refine ⟨prep_kernel t, ?_, ?_⟩
  · intro hs
    rw [prep_kernel]
    rw [sum_map_div, div_self hs]
  · intro nm hnm
    simp [default_input_prep_fn, hnm]

theorem C7_default_input_prep_witness :
    (default_input_prep_fn "kernel:0" [2, 2]).sum = 1 ∧
      default_input_prep_fn "data:0" [(3 : ℝ)] = [3] :=
  ⟨(C7_default_input_prep [2, 2]).2.1 (by norm_num),
    (C7_default_input_prep [(3 : ℝ)]).2.2 "data:0" (by decide)⟩

/-- C8: every successful run returns a `DeconvolutionResult` whose data
has exactly the original data's shape and whose info field is `None`. -/
theorem C8_result_shape (a : RLDeconvolver) (data kernel : List ℝ) (niter : ℕ)
    (r : DeconvolutionResult) (h : RLDeconvolver.run a data kernel niter = Except.ok r) :
    r.data.length = data.length ∧ r.info = none := by
  unfold RLDeconvolver.run at h
  cases hg : a.graph with
  | none => rw [hg] at h; exact absurd h (by simp)
  | some u =>
    rw [hg] at h
    cases hbr : build_and_run a.cfg a.pad_mode data kernel niter with
    | error e => rw [hbr] at h; simp [Except.map] at h
    | ok res =>
      rw [hbr] at h
      simp only [Except.map] at h
      have hr : r = DeconvolutionResult.mk res none := by
        cases h
        rfl
      unfold build_and_run at hbr
      cases hv : validate_graph a.pad_mode [(data.length : Int)] [(kernel.length : Int)] with
      | error e => rw [hv] at hbr; simp at hbr
      | ok u2 =>
        rw [hv] at hbr
        have hres : res = rl_result a.cfg a.pad_mode data kernel niter := by
          cases hbr
          rfl
        have hk : kernel.length ≤ data.length := by
          have := validate_ok_shapes _ _ _ (by cases u2; exact hv)
          exact_mod_cast (assert_shapes_single _ _).mp this
        rw [hr, hres]
        exact ⟨length_rl_result _ _ _ _ _ hk, rfl⟩

theorem C8_result_shape_witness :
    (DeconvolutionResult.mk [(0.5 : ℝ)] none).data.length = [(7 : ℝ)].length ∧
      (DeconvolutionResult.mk [(0.5 : ℝ)] none).info = none :=
  C8_result_shape ⟨⟨false, 1e-6⟩, OPM_NONE, some ()⟩ [7] [2] 0 ⟨[0.5], none⟩ (by
    unfold RLDeconvolver.run
    show (build_and_run ⟨false, 1e-6⟩ OPM_NONE [7] [2] 0).map _ = _
    rw [build_and_run_zero ⟨false, 1e-6⟩ OPM_NONE [7] [2] (by decide) (by decide)]
    rfl)

/-- C3: on data [1, 0], kernel [1, 0], pad mode NONE and one iteration,
the complex-domain path (`real_domain_fft = false`) returns [0, 1]
while the real-domain path (`real_domain_fft = true`) returns [1, 0]:
the two code paths are not equivalent, because `tf.reverse` flips the
kernel about the array center instead of about index 0, so the
real-domain spectrum corresponds to the conjugate spectrum circularly
shifted by one sample. -/
theorem C3_domain_divergence :
    build_and_run ⟨false, 1e-6⟩ OPM_NONE [1, 0] [1, 0] 1 = Except.ok [0, 1] ∧
      build_and_run ⟨true, 1e-6⟩ OPM_NONE [1, 0] [1, 0] 1 = Except.ok [1, 0] ∧
      build_and_run ⟨false, 1e-6⟩ OPM_NONE [1, 0] [1, 0] 1 ≠
        build_and_run ⟨true, 1e-6⟩ OPM_NONE [1, 0] [1, 0] 1 := by
  refine ⟨run_complex_concrete, run_real_concrete, ?_⟩
  rw [run_complex_concrete, run_real_concrete]
  intro hcontra
  simp only [Except.ok.injEq, List.cons.injEq] at hcontra
  norm_num at hcontra

/-- C9: running before `initialize` fails with the not-initialized
error whatever the inputs (no computation is attempted), and once
`initialize` has been called the instance has a graph, so that error
can no longer occur. -/
theorem C9_initialization (a : RLDeconvolver) (data kernel : List ℝ) (niter : ℕ) :
    (a.graph = none → RLDeconvolver.run a data kernel niter = Except.error notInitMsg) ∧
      (RLDeconvolver.init a).graph = some () ∧
      ∀ e, RLDeconvolver.run (RLDeconvolver.init a) data kernel niter = Except.error e →
        e ≠ notInitMsg := by
  refine ⟨?_, rfl, ?_⟩
  · intro hg
    unfold RLDeconvolver.run
    rw [hg]
  · intro e he
    have hrun : RLDeconvolver.run (RLDeconvolver.init a) data kernel niter =
        (build_and_run a.cfg a.pad_mode data kernel niter).map
          (fun r => DeconvolutionResult.mk r none) := rfl
    rw [hrun] at he
    cases hbr : build_and_run a.cfg a.pad_mode data kernel niter with
    | ok res => rw [hbr] at he; simp [Except.map] at he
    | error e2 =>
      rw [hbr] at he
      simp only [Except.map] at he
      have he2 : e2 = e := by cases he; rfl
      unfold build_and_run at hbr
      cases hv : validate_graph a.pad_mode [(data.length : Int)] [(kernel.length : Int)] with
      | ok u2 => rw [hv] at hbr; simp at hbr
      | error e3 =>
        rw [hv] at hbr
        have he3 : e3 = e2 := by cases hbr; rfl
        rcases validate_error_cases _ _ _ _ hv with hcase | hcase <;>
          · rw [← he2, ← he3, hcase]
            decide

theorem C9_initialization_witness :
    RLDeconvolver.run ⟨⟨false, 1e-6⟩, "log2", none⟩ [] [] 0 = Except.error notInitMsg ∧
      (RLDeconvolver.init ⟨⟨false, 1e-6⟩, "log2", none⟩).graph = some () :=
  ⟨(C9_initialization ⟨⟨false, 1e-6⟩, "log2", none⟩ [] [] 0).1 rfl,
    (C9_initialization ⟨⟨false, 1e-6⟩, "log2", none⟩ [] [] 0).2.1⟩

/-- C10: the shape validation passes exactly when the sum over all axes
of the differences between data and kernel extents is nonnegative; in
particular data shape [2, 5] against kernel shape [3, 1], where kernel
axis 0 (extent 3) strictly exceeds data axis 0 (extent 2), passes the
whole validation gate and the computation proceeds. -/
theorem C10_shape_validation_sum :
    (∀ dshape kshape : List Int,
        assert_shapes dshape kshape = true ↔
          0 ≤ (List.zipWith (fun a b => a - b) dshape kshape).sum) ∧
      validate_graph OPM_LOG2 [2, 5] [3, 1] = Except.ok () ∧ (2 : Int) < 3 :=
  ⟨fun ds ks => by simp [assert_shapes, flag_shapes], rfl, by decide⟩

end Flowdec
